import Mathlib

/-!
Shallow embedding of the ContentCraft video-generation pipeline.

The definitions below are direct translations of the TypeScript sources:
  * `server/lib/complianceChecker.ts` — evidence/banned-term vocabularies,
    `simpleComplianceCheck`, `evaluateCompliance`;
  * `server/lib/meditagEngine.ts` — `parseHCPData`, `segmentHCP`, `analyzeHCP`;
  * `server/lib/heygenApi.ts` — `generateVideo`, `checkVideoStatus`,
    `getAvatarForHCP`, `generateThumbnailUrl`;
  * the video service (`createVideo`, `getComplianceStats`, `getVideoTitle`).

External collaborators (OpenAI text service, HeyGen HTTP endpoints, the
persistence store) are modelled by explicit environment records: each
fallible call becomes an `Except Unit`-valued field describing the outcome
the collaborator produced, and storage becomes explicit state passing.
JavaScript-specific behaviour (truthiness of `0`/`""`/`null`, `parseFloat`
returning `NaN`, first-occurrence `String.replace`, `Math.round`,
`Number.toFixed(1)`) is embedded explicitly.
-/

namespace ContentCraft

/-- Generic JS-style substring test: does `needle` occur contiguously in
`hay`?  Mirrors JavaScript `hay.includes(needle)`. -/
def listContains (hay needle : List Char) : Bool :=
  match hay with
  | [] => needle.isEmpty
  | _ :: rest => needle.isPrefixOf hay || listContains rest needle

/-- JS `hay.includes(needle)` on strings. -/
def strIncludes (hay needle : String) : Bool :=
  listContains hay.data needle.data

/-- JS `String.prototype.toLowerCase` (ASCII range): lowercase each
character. -/
def strToLower (s : String) : String :=
  String.mk (s.data.map Char.toLower)

/-! ### Compliance checker (`server/lib/complianceChecker.ts`) -/

/-- Compliance status enum (`'Passed' | 'Review' | 'Failed'`). -/
inductive CStatus where
  | Passed
  | Review
  | Failed
deriving DecidableEq

/-- Structured verdict returned by the LLM compliance call
(`checkCompliance` in `server/lib/openai.ts`): `passed`, `score`,
optional `issues` and `recommendations`. -/
structure ComplianceDetails where
  passed : Bool
  score : ℚ
  issues : Option (List String) := none
  recommendations : Option (List String) := none
deriving DecidableEq

/-- Result shape of `evaluateCompliance`. -/
structure ComplianceResult where
  passed : Bool
  status : CStatus
  details : ComplianceDetails
deriving DecidableEq

/-- Evidence-language vocabulary from `containsEvidenceBasedLanguage`. -/
def evidenceTerms : List String :=
  ["evidence-based", "clinical trial", "study shows", "research indicates",
   "data suggest", "demonstrated efficacy", "proven", "clinically validated",
   "statistically significant", "peer-reviewed", "meta-analysis",
   "randomized controlled trial", "rct"]

/-- `containsEvidenceBasedLanguage`: lowercase the script, check whether any
evidence term occurs as a substring. -/
def containsEvidenceBasedLanguage (script : String) : Bool :=
  let lowerScript := strToLower script
  evidenceTerms.any (fun term => strIncludes lowerScript term)

/-- Banned marketing vocabulary from `simpleComplianceCheck`. -/
def nonCompliantTerms : List String :=
  ["best in class", "superior to", "better than", "most effective",
   "guaranteed", "miracle", "cure", "no side effects", "risk free",
   "immediate results", "complete relief", "revolutionary", "breakthrough"]

/-- Banned-term scan performed inline by `simpleComplianceCheck`. -/
def containsNonCompliantLanguage (script : String) : Bool :=
  let lowerScript := strToLower script
  nonCompliantTerms.any (fun term => strIncludes lowerScript term)

/-- `simpleComplianceCheck`: local heuristic, passes iff the script has
evidence-based language and no banned marketing term. -/
def simpleComplianceCheck (script : String) : Bool :=
  containsEvidenceBasedLanguage script && !(containsNonCompliantLanguage script)

/-- `evaluateCompliance`.  The LLM call outcome is an explicit argument:
`Except.ok d` is the primary path with verdict `d`; `Except.error ()` is the
catch branch (network/service error), which falls back to
`simpleComplianceCheck`. -/
def evaluateCompliance (script : String) (llm : Except Unit ComplianceDetails) :
    ComplianceResult :=
  match llm with
  | Except.ok complianceDetails =>
      let status0 : CStatus :=
        if complianceDetails.passed then CStatus.Passed
        else if complianceDetails.score ≥ 60 then CStatus.Review
        else CStatus.Failed
      let evidenceBasedCheck := containsEvidenceBasedLanguage script
      let status :=
        if evidenceBasedCheck ∧ status0 = CStatus.Failed then CStatus.Review
        else status0
      { passed := decide (status = CStatus.Passed), status := status,
        details := complianceDetails }
  | Except.error _ =>
      let fallbackPassed := simpleComplianceCheck script
      { passed := fallbackPassed,
        status := if fallbackPassed then CStatus.Passed else CStatus.Review,
        details :=
          { passed := fallbackPassed,
            score := if fallbackPassed then 80 else 50,
            issues := some (if fallbackPassed then []
              else ["Compliance check error - limited validation performed"]),
            recommendations := some (if fallbackPassed then []
              else ["Include explicit evidence-based language"]) } }

/-- C1: on the primary (LLM-success) path the returned status is `Passed`
when the verdict passed, `Review` when it failed with score ≥ 60, and
otherwise `Failed` unless an evidence-language marker rescues it to
`Review`; in particular the rescue case yields `Review`, never `Passed`. -/
theorem evaluateCompliance_primary_status (script : String)
    (d : ComplianceDetails) :
    (evaluateCompliance script (Except.ok d)).status =
      (if d.passed then CStatus.Passed
       else if d.score ≥ 60 then CStatus.Review
       else if containsEvidenceBasedLanguage script then CStatus.Review
       else CStatus.Failed) := by
  unfold evaluateCompliance
  by_cases hp : d.passed <;>
    by_cases hs : d.score ≥ 60 <;>
      by_cases he : containsEvidenceBasedLanguage script <;>
        simp [hp, hs, he]

/-- Fallback result when the local heuristic passes: `Passed`, score 80,
empty issues and recommendations. -/
def fallbackPassResult : ComplianceResult :=
  { passed := true, status := CStatus.Passed,
    details :=
      { passed := true, score := 80, issues := some [],
        recommendations := some [] } }

/-- Fallback result when the local heuristic fails: `Review`, score 50,
generic issue/recommendation pair. -/
def fallbackReviewResult : ComplianceResult :=
  { passed := false, status := CStatus.Review,
    details :=
      { passed := false, score := 50,
        issues :=
          some ["Compliance check error - limited validation performed"],
        recommendations :=
          some ["Include explicit evidence-based language"] } }

/-- C2: on the fallback (LLM-failure) path, the result is `Passed` with
score 80 and empty issue/recommendation lists exactly when the script has an
evidence marker and no banned term, and otherwise `Review` with score 50 and
the generic issue/recommendation pair; the fallback never yields `Failed`. -/
theorem evaluateCompliance_fallback_spec (script : String) :
    (evaluateCompliance script (Except.error ()) =
      (if containsEvidenceBasedLanguage script &&
          !(containsNonCompliantLanguage script) then fallbackPassResult
       else fallbackReviewResult)) ∧
      (evaluateCompliance script (Except.error ())).status ≠ CStatus.Failed := by
  unfold evaluateCompliance simpleComplianceCheck
  by_cases h : containsEvidenceBasedLanguage script &&
      !(containsNonCompliantLanguage script) <;>
    simp [h, fallbackPassResult, fallbackReviewResult]

/-- C9: on both paths of `evaluateCompliance`, the `passed` boolean is true
iff the status is `Passed`. -/
theorem evaluateCompliance_passed_iff_Passed (script : String)
    (llm : Except Unit ComplianceDetails) :
    (evaluateCompliance script llm).passed = true ↔
      (evaluateCompliance script llm).status = CStatus.Passed := by
  cases llm with
  | ok d =>
      unfold evaluateCompliance
      simp
  | error e =>
      unfold evaluateCompliance
      by_cases h : simpleComplianceCheck script <;> simp [h]

/-! ### MediTag segmenter (`server/lib/meditagEngine.ts`) -/

/-- JavaScript number as produced by `parseFloat`: either `NaN` or an exact
rational value. -/
inductive JsNum where
  | nan
  | num (q : ℚ)
deriving DecidableEq

/-- JS comparison `x > c`: false whenever `x` is `NaN`. -/
def JsNum.gtQ : JsNum → ℚ → Bool
  | JsNum.nan, _ => false
  | JsNum.num q, c => decide (c < q)

/-- Parsed HCP record (`HCPData` in `meditagEngine.ts`); every field may be
absent. -/
structure HCPData where
  specialty : Option String := none
  prescription_rate : Option JsNum := none
  practice_size : Option String := none
  years_experience : Option ℕ := none
deriving DecidableEq

/-- JS regex `\s` whitespace class, restricted to the ASCII range. -/
def jsWhitespace (c : Char) : Bool :=
  c = ' ' || c = '\t' || c = '\n' || c = '\r' || c = '\x0b' || c = '\x0c'

/-- JS `String.prototype.trim`: strip whitespace from both ends. -/
def jsTrim (s : String) : String :=
  String.mk
    (((s.data.dropWhile jsWhitespace).reverse.dropWhile jsWhitespace).reverse)

/-- Case-insensitive literal match: when the lowercase of `cs` starts with
the (already lowercase) `label`, return the remainder of `cs`. -/
def dropLabelCI : List Char → List Char → Option (List Char)
  | [], cs => some cs
  | _ :: _, [] => none
  | l :: ls, c :: cs => if c.toLower = l then dropLabelCI ls cs else none

/-- Scan every start position left to right, as the JS regex engine does for
an unanchored pattern, returning the first successful match. -/
def scanPositions (m : List Char → Option (List Char)) :
    List Char → Option (List Char)
  | [] => m []
  | c :: rest =>
      match m (c :: rest) with
      | some r => some r
      | none => scanPositions m rest

/-- Matcher for `label:\s*(CLASS+)` at a single start position, where the
character class contains no whitespace (so the greedy `\s*` never needs to
backtrack).  Used for `([\d.]+)` and `(\d+)`. -/
def matchClassAt (label : List Char) (cls : Char → Bool) (cs : List Char) :
    Option (List Char) :=
  match dropLabelCI label cs with
  | none => none
  | some rest =>
      let cap := (rest.dropWhile jsWhitespace).takeWhile cls
      if cap.isEmpty then none else some cap

/-- Backtracking of a greedy `\s*` into a following `([^,\n]+)` when the
character right after the whitespace run is `,`, `\n` or the end of input:
the regex engine gives whitespace back one character at a time, so the
capture becomes the last non-newline character of the whitespace run (a
single space or tab), or the position fails if the run is all newlines. -/
def backtrackWs (ws : List Char) : Option (List Char) :=
  match ws.reverse.dropWhile (fun c => c = '\n') with
  | c :: _ => some [c]
  | [] => none

/-- Matcher for `label:\s*([^,\n]+)` at a single start position (used for
`specialty:` and `practice_size:`). -/
def matchFieldAt (label : List Char) (cs : List Char) : Option (List Char) :=
  match dropLabelCI label cs with
  | none => none
  | some rest =>
      let ws := rest.takeWhile jsWhitespace
      let tail := rest.dropWhile jsWhitespace
      match tail with
      | c :: _ =>
          if c = ',' || c = '\n' then backtrackWs ws
          else some (tail.takeWhile (fun x => !(x = ',' || x = '\n')))
      | [] => backtrackWs ws

/-- Numeric value of a decimal digit character. -/
def digitVal (c : Char) : ℕ := c.toNat - '0'.toNat

/-- Value of a digit string (how JS `parseInt` reads a `(\d+)` capture). -/
def digitsToNat (ds : List Char) : ℕ :=
  ds.foldl (fun acc c => 10 * acc + digitVal c) 0

/-- JS `parseFloat` applied to a capture of `[\d.]+`: integer digits, an
optional dot, then fractional digits, stopping at a second dot; `NaN` when no
digit is read before stopping (for example on the capture `"."`). -/
def jsParseFloat (cs : List Char) : JsNum :=
  let ip := cs.takeWhile Char.isDigit
  let rest := cs.drop ip.length
  match rest with
  | '.' :: rest2 =>
      let fp := rest2.takeWhile Char.isDigit
      if ip.isEmpty && fp.isEmpty then JsNum.nan
      else
        JsNum.num ((digitsToNat ip : ℚ) + (digitsToNat fp : ℚ) / (10 : ℚ) ^ fp.length)
  | _ => if ip.isEmpty then JsNum.nan else JsNum.num (digitsToNat ip)

/-- `parseHCPData`: labeled-field extraction with the specialty keyword
fallback chain (`Cardiologist` / `Oncologist` / `Neurologist`, matched
case-sensitively on the raw text). -/
def parseHCPData (hcpText : String) : HCPData :=
  let cs := hcpText.data
  let specialty : Option String :=
    match scanPositions (matchFieldAt "specialty:".data) cs with
    | some cap => some (jsTrim (String.mk cap))
    | none =>
        if strIncludes hcpText "Cardiologist" then some "Cardiology"
        else if strIncludes hcpText "Oncologist" then some "Oncology"
        else if strIncludes hcpText "Neurologist" then some "Neurology"
        else none
  let prescription_rate : Option JsNum :=
    (scanPositions
      (matchClassAt "prescription_rate:".data (fun c => c.isDigit || c = '.'))
      cs).map jsParseFloat
  let practice_size : Option String :=
    (scanPositions (matchFieldAt "practice_size:".data) cs).map
      (fun cap => jsTrim (String.mk cap))
  let years_experience : Option ℕ :=
    (scanPositions (matchClassAt "years_experience:".data Char.isDigit) cs).map
      digitsToNat
  { specialty := specialty, prescription_rate := prescription_rate,
    practice_size := practice_size, years_experience := years_experience }

/-- Result shape of the segmenter (`MediTagResult`); `segmentReason` stands
for the `segmentReason` entry of its `characteristics` record. -/
structure MediTagResult where
  segment : String
  confidence : ℚ
  segmentReason : String
deriving DecidableEq

/-- Lines 87–118 of `segmentHCP`: segment and confidence before the
specialty-specific adjustments. -/
def segmentBase (hcpData : HCPData) : String × ℚ :=
  match hcpData.prescription_rate with
  | some r =>
      if r.gtQ 0.7 then ("Early Adopter", 0.85)
      else if r.gtQ 0.4 then
        match hcpData.years_experience with
        | some y =>
            if y > 10 then ("Evidence Driven", 0.9) else ("Mainstream", 0.75)
        | none => ("Mainstream", 0.75)
      else ("Conservative", 0.8)
  | none =>
      match hcpData.years_experience with
      | some y =>
          if y > 15 then ("Evidence Driven", 0.7)
          else if y < 5 then ("Early Adopter", 0.6)
          else ("General", 0.7)
      | none => ("General", 0.7)

/-- Lines 120–133 of `segmentHCP`: Oncology and Cardiology-with-large-practice
confidence adjustments. -/
def specialtyAdjust (hcpData : HCPData) (segment : String) (confidence : ℚ) :
    ℚ :=
  if hcpData.specialty = some "Oncology" then
    if segment ≠ "Evidence Driven" then confidence - 0.1 else confidence + 0.05
  else if hcpData.specialty = some "Cardiology" then
    if hcpData.practice_size = some "large" ∧ segment ≠ "Mainstream" then
      confidence - 0.1
    else confidence
  else confidence

/-- `getSegmentReason` (the `hcpData` argument is accepted but unused, as in
the source). -/
def getSegmentReason (segment : String) (_hcpData : HCPData) : String :=
  if segment = "Early Adopter" then
    "High prescription rate and/or recent entry to practice"
  else if segment = "Evidence Driven" then
    "Significant experience and moderate prescription patterns"
  else if segment = "Mainstream" then
    "Average prescription rate with balanced approach"
  else if segment = "Conservative" then
    "Lower prescription rate, likely preferring established treatments"
  else "Insufficient data for detailed segmentation"

/-- `segmentHCP`: base rule followed by the specialty adjustment. -/
def segmentHCP (hcpData : HCPData) : MediTagResult :=
  { segment := (segmentBase hcpData).1,
    confidence :=
      specialtyAdjust hcpData (segmentBase hcpData).1 (segmentBase hcpData).2,
    segmentReason := getSegmentReason (segmentBase hcpData).1 hcpData }

/-- `analyzeHCP`: parse then segment (the surrounding try/catch in the source
has no reachable throw, so the function is total). -/
def analyzeHCP (hcpText : String) : MediTagResult :=
  segmentHCP (parseHCPData hcpText)

/-- C4: with a numeric prescription rate present, the pre-adjustment rule is
`Early Adopter`/0.85 for rate > 0.7; for 0.4 < rate ≤ 0.7, `Evidence
Driven`/0.9 when years of experience is present and > 10, else
`Mainstream`/0.75; and `Conservative`/0.8 for rate ≤ 0.4. -/
theorem segmentBase_primary_rule (d : HCPData) (r : ℚ)
    (h : d.prescription_rate = some (JsNum.num r)) :
    segmentBase d =
      (if 0.7 < r then ("Early Adopter", (0.85 : ℚ))
       else if 0.4 < r then
         (match d.years_experience with
          | some y =>
              if 10 < y then ("Evidence Driven", (0.9 : ℚ))
              else ("Mainstream", (0.75 : ℚ))
          | none => ("Mainstream", (0.75 : ℚ)))
       else ("Conservative", (0.8 : ℚ))) := by
  unfold segmentBase
  rw [h]
  by_cases h7 : (0.7 : ℚ) < r <;> by_cases h4 : (0.4 : ℚ) < r <;>
    simp [JsNum.gtQ, h7, h4]

/-- Witness for C4 at a concrete record with rate 0.8. -/
theorem segmentBase_primary_rule_witness :
    segmentBase { prescription_rate := some (JsNum.num 0.8) } =
      ("Early Adopter", (0.85 : ℚ)) := by
  rw [segmentBase_primary_rule { prescription_rate := some (JsNum.num 0.8) }
    0.8 rfl]
  norm_num

/-- Confidence before specialty adjustment always lies in [0.6, 0.9]. -/
theorem segmentBase_conf_bounds (d : HCPData) :
    (0.6 : ℚ) ≤ (segmentBase d).2 ∧ (segmentBase d).2 ≤ 0.9 := by
  obtain ⟨spec, rate, psize, years⟩ := d
  rcases rate with _ | r <;> rcases years with _ | y <;> simp only [segmentBase]
  all_goals try split_ifs
  all_goals norm_num

/-- Confidence after the specialty adjustment lies in [0, 1] for every
parsed HCP record. -/
theorem segmentHCP_confidence_in_range (d : HCPData) :
    0 ≤ (segmentHCP d).confidence ∧ (segmentHCP d).confidence ≤ 1 := by
  obtain ⟨h1, h2⟩ := segmentBase_conf_bounds d
  unfold segmentHCP specialtyAdjust
  dsimp only
  split_ifs <;> constructor <;> linarith

/-- C7: for every HCP text input the segmenter's returned confidence lies in
[0, 1], including after the Oncology (+0.05 / −0.1) and
Cardiology-with-large-practice (−0.1) adjustments, even though no explicit
re-clamping is performed. -/
theorem analyzeHCP_confidence_in_range (hcpText : String) :
    0 ≤ (analyzeHCP hcpText).confidence ∧
      (analyzeHCP hcpText).confidence ≤ 1 :=
  segmentHCP_confidence_in_range (parseHCPData hcpText)

/-- C10: on the input `"prescription_rate: ."` the rate capture matches the
extraction pattern but `parseFloat` yields `NaN`; the NaN rate fails both the
`> 0.7` and `> 0.4` comparisons, so the segmenter assigns `Conservative`
with confidence 0.8 rather than treating the rate as absent. -/
theorem analyzeHCP_dot_rate_conservative :
    (parseHCPData "prescription_rate: .").prescription_rate = some JsNum.nan ∧
    (analyzeHCP "prescription_rate: .").segment = "Conservative" ∧
    (analyzeHCP "prescription_rate: .").confidence = 0.8 := by
  have hp : parseHCPData "prescription_rate: ." =
      { specialty := none, prescription_rate := some JsNum.nan,
        practice_size := none, years_experience := none } := by decide
  refine ⟨by rw [hp], ?_, ?_⟩ <;>
    simp [analyzeHCP, hp, segmentHCP, segmentBase, specialtyAdjust,
      getSegmentReason, JsNum.gtQ]

/-! ### HeyGen video synthesizer (`server/lib/heygenApi.ts`) -/

/-- JS truthiness of an optional string: `null`/`undefined` and `""` are
falsy. -/
def jsTruthyStrOpt : Option String → Bool
  | some s => s != ""
  | none => false

/-- Placeholder media asset returned on provider failure. -/
def placeholderVideoUrl : String :=
  "https://assets.mixkit.co/videos/preview/mixkit-medical-team-in-a-hospital-room-31695-large.mp4"

/-- Placeholder thumbnail paired with the placeholder video. -/
def placeholderThumbnailUrl : String :=
  "https://assets.mixkit.co/videos/preview/mixkit-medical-team-in-a-hospital-room-31695-large.jpg"

/-- Result shape of `generateVideo` (`HeyGenVideoGenerationResult`). -/
structure HeyGenResult where
  videoUrl : String
  thumbnailUrl : String
  videoId : String
deriving DecidableEq

/-- The full placeholder result produced by the outer catch of
`generateVideo`. -/
def placeholderResult : HeyGenResult :=
  { videoUrl := placeholderVideoUrl, thumbnailUrl := placeholderThumbnailUrl,
    videoId := "simulated-video-id" }

/-- Outcomes of the HeyGen HTTP calls made during one `generateVideo` run.
`Except.error ()` is a transport/HTTP error (axios throw); `Except.ok x`
is a 2xx response, with `x` the relevant field when the response body carried
it in a truthy form-independent way: for `v2Response` the `data.video_id`,
for `v1Response` the `data.task_id` of a body with `status == "success"`,
for the two status endpoints the reported media URL. -/
structure HeyGenEnv where
  apiKey : Option String
  v2Response : Except Unit (Option String)
  v1Response : Except Unit (Option String)
  videoStatusResponse : Except Unit (Option String)
  taskStatusResponse : Except Unit (Option String)

/-- `getAvatarForHCP`: fixed lookup table with a default avatar. -/
def getAvatarForHCP (targetHCP : String) : String :=
  if targetHCP = "Cardiologist" then "Anna-headshot-20240205"
  else if targetHCP = "Oncologist" then "Dave-headshot-20240205"
  else if targetHCP = "Neurologist" then "Angela-inTshirt-20220820"
  else if targetHCP = "Pediatrician" then "Ben-office-20220820"
  else if targetHCP = "Dermatologist" then "Mark-office-20220820"
  else "Angela-inTshirt-20220820"

/-- Value accepted from one HeyGen call: a 2xx response whose relevant field
is present and truthy; transport errors, absent fields, and empty strings are
all rejected (each of these makes the source throw into the next attempt). -/
def acceptField : Except Unit (Option String) → Option String
  | Except.ok (some s) => if s = "" then none else some s
  | _ => none

/-- First successful attempt of an ordered pair, as the source's nested
try/catch. -/
def firstSome (a b : Option String) : Option String :=
  match a with
  | some x => some x
  | none => b

/-- Submission phase of `generateVideo`: try the v2 API, and on a transport
error or a response without a truthy `video_id`, fall back to the v1 API;
`none` means both attempts failed (the outer catch fires). -/
def submitVideoId (env : HeyGenEnv) : Option String :=
  firstSome (acceptField env.v2Response) (acceptField env.v1Response)

/-- Status-resolution phase (`checkVideoStatus` before its own catch): the
`v1/video_status.get` endpoint, then `v1/task_status.get`, each accepted only
when it reports a truthy URL; `none` means both failed. -/
def pollUrl (env : HeyGenEnv) : Option String :=
  firstSome (acceptField env.videoStatusResponse)
    (acceptField env.taskStatusResponse)

/-- `checkVideoStatus`: its catch substitutes the placeholder URL, so the
function is total. -/
def checkVideoStatus (env : HeyGenEnv) : String :=
  (pollUrl env).getD placeholderVideoUrl

/-- First-occurrence replacement, as JS `String.replace` with a string
pattern. -/
def replaceFirstList (pat rep : List Char) : List Char → List Char
  | [] => []
  | c :: rest =>
      if pat.isPrefixOf (c :: rest) then rep ++ (c :: rest).drop pat.length
      else c :: replaceFirstList pat rep rest

/-- `generateThumbnailUrl`: substitute `.jpg` for the first `.mp4` in the
video URL. -/
def generateThumbnailUrl (videoUrl : String) : String :=
  String.mk (replaceFirstList ".mp4".data ".jpg".data videoUrl.data)

/-- `generateVideo` from `heygenApi.ts`.  The avatar chosen by
`getAvatarForHCP` is sent to the provider but does not influence the returned
record.  A missing (or empty, hence falsy) API key throws into the outer
catch; a submission where both API versions fail does the same; a successful
submission always produces a record with the polled (or placeholder) URL and
the provider's id. -/
def generateVideo (_script _targetHCP : String) (env : HeyGenEnv) :
    HeyGenResult :=
  if jsTruthyStrOpt env.apiKey = false then placeholderResult
  else
    match submitVideoId env with
    | none => placeholderResult
    | some videoId =>
        { videoUrl := checkVideoStatus env,
          thumbnailUrl := generateThumbnailUrl (checkVideoStatus env),
          videoId := videoId }

/-- A value accepted from a HeyGen response is never the empty string. -/
theorem acceptField_ne_empty (r : Except Unit (Option String)) (u : String)
    (h : acceptField r = some u) : u ≠ "" := by
  rcases r with _ | x
  · simp [acceptField] at h
  · rcases x with _ | v
    · simp [acceptField] at h
    · by_cases hv : v = ""
      · simp [acceptField, hv] at h
      · simp [acceptField, hv] at h
        rwa [h] at hv

/-- A URL accepted from a status endpoint is never the empty string. -/
theorem pollUrl_ne_empty (env : HeyGenEnv) (u : String)
    (h : pollUrl env = some u) : u ≠ "" := by
  unfold pollUrl firstSome at h
  rcases ha : acceptField env.videoStatusResponse with _ | v <;> rw [ha] at h
  · exact acceptField_ne_empty _ u h
  · injection h with h2
    subst h2
    exact acceptField_ne_empty _ v ha

/-- The placeholder thumbnail is the placeholder video URL with its `.mp4`
extension substituted. -/
theorem thumbnail_of_placeholder :
    generateThumbnailUrl placeholderVideoUrl = placeholderThumbnailUrl := by
  decide

/-- C3 counterexample: with a configured key, a successful v2 submission
returning id `"vid123"`, and both status endpoints failing (status-polling
failure), the synthesizer returns the placeholder video URL and thumbnail but
keeps the provider's real id — not the simulated id the claim requires. -/
theorem generateVideo_poll_failure_keeps_real_id :
    (generateVideo "script" "Cardiologist"
        { apiKey := some "key", v2Response := Except.ok (some "vid123"),
          v1Response := Except.ok none,
          videoStatusResponse := Except.error (),
          taskStatusResponse := Except.error () } =
      { videoUrl := placeholderVideoUrl,
        thumbnailUrl := placeholderThumbnailUrl, videoId := "vid123" }) ∧
    "vid123" ≠ "simulated-video-id" := by
  constructor
  · decide
  · decide

/-- C3 amended: the synthesizer is total to its caller and its video URL is
never empty; with a falsy API key, or when both submission attempts fail, it
returns the full placeholder triple (including the simulated id); when
submission succeeds but status polling fails it returns the placeholder video
URL and thumbnail together with the provider's real id. -/
theorem generateVideo_total_with_placeholder_degradation
    (script targetHCP : String) (env : HeyGenEnv) :
    (generateVideo script targetHCP env).videoUrl ≠ "" ∧
    (jsTruthyStrOpt env.apiKey = false →
      generateVideo script targetHCP env = placeholderResult) ∧
    (submitVideoId env = none →
      generateVideo script targetHCP env = placeholderResult) ∧
    (∀ vid, jsTruthyStrOpt env.apiKey = true → submitVideoId env = some vid →
      pollUrl env = none →
      generateVideo script targetHCP env =
        { videoUrl := placeholderVideoUrl,
          thumbnailUrl := placeholderThumbnailUrl, videoId := vid }) := by
  by_cases hk : jsTruthyStrOpt env.apiKey = false
  · have hg : generateVideo script targetHCP env = placeholderResult := by
      unfold generateVideo
      rw [hk]
      simp
    refine ⟨by rw [hg]; decide, fun _ => hg, fun _ => hg, ?_⟩
    intro vid hkt hsv hpn
    rw [hkt] at hk
    exact absurd hk (by decide)
  · have hk2 : jsTruthyStrOpt env.apiKey = true := by
      simpa using hk
    rcases hs : submitVideoId env with _ | vid
    · have hg : generateVideo script targetHCP env = placeholderResult := by
        unfold generateVideo
        rw [hk2, hs]
        simp
      refine ⟨by rw [hg]; decide, fun h => absurd h hk, fun _ => hg, ?_⟩
      intro vid2 hkt hsv hpn
      cases hsv
    · have hg : generateVideo script targetHCP env =
          { videoUrl := checkVideoStatus env,
            thumbnailUrl := generateThumbnailUrl (checkVideoStatus env),
            videoId := vid } := by
        unfold generateVideo
        rw [hk2, hs]
        simp
      refine ⟨?_, fun h => absurd h hk, ?_, ?_⟩
      · rw [hg]
        show checkVideoStatus env ≠ ""
        unfold checkVideoStatus
        rcases hp : pollUrl env with _ | u
        · decide
        · exact pollUrl_ne_empty env u hp
      · intro h
        cases h
      · intro vid2 hkt hsv hpn
        injection hsv with hv
        subst hv
        have hcv : checkVideoStatus env = placeholderVideoUrl := by
          unfold checkVideoStatus
          rw [hpn]
          rfl
        rw [hg, hcv, thumbnail_of_placeholder]

/-- Witness for the C3 amended theorem: with no API key configured the
synthesizer returns exactly the placeholder triple. -/
theorem generateVideo_total_with_placeholder_degradation_witness :
    generateVideo "s" "Cardiologist"
        { apiKey := none, v2Response := Except.ok none,
          v1Response := Except.ok none,
          videoStatusResponse := Except.ok none,
          taskStatusResponse := Except.ok none } =
      placeholderResult :=
  (generateVideo_total_with_placeholder_degradation "s" "Cardiologist"
      { apiKey := none, v2Response := Except.ok none,
        v1Response := Except.ok none,
        videoStatusResponse := Except.ok none,
        taskStatusResponse := Except.ok none }).2.1 (by decide)

/-! ### Video service: orchestrator and stats (`server/services/videoService.ts`) -/

/-- JS truthiness of an optional number: `null`/`undefined` and `0` are
falsy. -/
def jsTruthyNatOpt : Option ℕ → Bool
  | some n => n != 0
  | none => false

/-- Stored upload row (fields used by the pipeline). -/
structure UploadRec where
  id : ℕ
  user_id : String
  hcp_text : String
  document_path : Option String := none
deriving DecidableEq

/-- Structured output of the script-drafting LLM call
(`ScriptGenerationResult` in `server/lib/openai.ts`). -/
structure ScriptDraft where
  script : String
  duration : ℤ
  targetAudience : String

/-- Stored video row (fields set by `createVideo` plus the id the store
assigns). -/
structure VideoRec where
  id : ℕ
  title : String
  upload_id : ℕ
  prompt : String
  target_hcp : String
  video_url : String
  thumbnail_url : String
  duration : ℤ
  compliance_status : CStatus
  meditag_segment : String
  generated_script : String
  compliance_details : ComplianceDetails
deriving DecidableEq

/-- Fields of an `InsertVideo` payload (no id; the store assigns one). -/
structure InsertVideo where
  title : String
  upload_id : ℕ
  prompt : String
  target_hcp : String
  video_url : String
  thumbnail_url : String
  duration : ℤ
  compliance_status : CStatus
  meditag_segment : String
  generated_script : String
  compliance_details : ComplianceDetails

/-- Persistence store state: upload and video tables with their id
counters. -/
structure Storage where
  uploads : List UploadRec
  videos : List VideoRec
  nextUploadId : ℕ
  nextVideoId : ℕ
deriving DecidableEq

/-- `storage.createUpload`: assign the next id and append the row. -/
def storageCreateUpload (st : Storage) (userId hcpText : String) :
    Storage × UploadRec :=
  let up : UploadRec :=
    { id := st.nextUploadId, user_id := userId, hcp_text := hcpText }
  ({ st with
      uploads := st.uploads ++ [up],
      nextUploadId := st.nextUploadId + 1 }, up)

/-- `storage.createVideo`: assign the next id and append the row. -/
def storageCreateVideo (st : Storage) (iv : InsertVideo) :
    Storage × VideoRec :=
  let v : VideoRec :=
    { id := st.nextVideoId, title := iv.title, upload_id := iv.upload_id,
      prompt := iv.prompt, target_hcp := iv.target_hcp,
      video_url := iv.video_url, thumbnail_url := iv.thumbnail_url,
      duration := iv.duration, compliance_status := iv.compliance_status,
      meditag_segment := iv.meditag_segment,
      generated_script := iv.generated_script,
      compliance_details := iv.compliance_details }
  ({ st with
      videos := st.videos ++ [v],
      nextVideoId := st.nextVideoId + 1 }, v)

/-- Global regex replace of the filler alternation `create a|video for|about`
by the empty string, scanning left to right as the JS engine does. -/
def stripFillers (cs : List Char) : List Char :=
  match cs with
  | [] => []
  | c :: rest =>
      if "create a".data.isPrefixOf (c :: rest) then
        stripFillers ((c :: rest).drop 8)
      else if "video for".data.isPrefixOf (c :: rest) then
        stripFillers ((c :: rest).drop 9)
      else if "about".data.isPrefixOf (c :: rest) then
        stripFillers ((c :: rest).drop 5)
      else c :: stripFillers rest
termination_by cs.length
decreasing_by
  all_goals simp only [List.length_drop, List.length_cons]
  all_goals omega

/-- JS `word.charAt(0).toUpperCase() + word.slice(1)`. -/
def capitalizeWord (w : String) : String :=
  match w.data with
  | [] => ""
  | c :: rest => String.mk (c.toUpper :: rest)

/-- `getVideoTitle`: strip filler phrases from the lowercased prompt, keep
the first three words longer than three characters, capitalize them, and
prefix the target audience; generic title when no keyword survives. -/
def getVideoTitle (prompt targetHCP : String) : String :=
  let keywords :=
    ((((String.mk (stripFillers (strToLower prompt).data)).splitOn " ").filter
      (fun w => w.length > 3)).take 3).map capitalizeWord
  if keywords.length = 0 then targetHCP ++ " Information Video"
  else targetHCP ++ " " ++ String.intercalate " " keywords

/-- Outcomes of the external calls made during one `createVideo` run. -/
structure PipelineEnv where
  scriptResult : Except Unit ScriptDraft
  llmCompliance : Except Unit ComplianceDetails
  heygen : HeyGenEnv

/-- Errors that abort a `createVideo` run. -/
inductive PipelineError where
  | uploadNotFound (id : ℕ)
  | scriptGenFailed
deriving DecidableEq

/-- Fixed default HCP profile substituted when no usable HCP text exists. -/
def defaultHcpText : String :=
  "Cardiologist with 10 years of experience, working in a large hospital setting"

/-- Input resolution of `createVideo` (its first block): returns the
possibly-updated storage and either an error or
`(finalHcpText, uploadIdToUse, documentPath)`.  Note the source's asymmetry:
truthy but whitespace-only HCP text substitutes the default text *without*
creating an upload record, leaving `uploadIdToUse` as the (falsy) incoming
value. -/
def resolveInput (uploadId : Option ℕ) (hcpText : Option String)
    (st : Storage) :
    Storage × Except PipelineError (String × Option ℕ × Option String) :=
  if jsTruthyNatOpt uploadId then
    let uid := uploadId.getD 0
    match st.uploads.find? (fun u => u.id == uid) with
    | none => (st, Except.error (PipelineError.uploadNotFound uid))
    | some u => (st, Except.ok (u.hcp_text, uploadId, u.document_path))
  else if jsTruthyStrOpt hcpText then
    let t := hcpText.getD ""
    if jsTrim t != "" then
      let r := storageCreateUpload st "anonymous" t
      (r.1, Except.ok (t, some r.2.id, none))
    else
      (st, Except.ok (defaultHcpText, uploadId, none))
  else
    let r := storageCreateUpload st "anonymous" defaultHcpText
    (r.1, Except.ok (defaultHcpText, some r.2.id, none))

/-- `createVideo` from the video service: resolve input, segment, draft the
script (fatal on failure), evaluate compliance, synthesize the video, and
persist one video row.  Storage is threaded explicitly so that effects
performed before an abort (upload creation) are preserved. -/
def createVideoRun (env : PipelineEnv) (uploadId : Option ℕ) (prompt : String)
    (hcpText : Option String) (st : Storage) :
    Storage × Except PipelineError VideoRec :=
  match resolveInput uploadId hcpText st with
  | (st1, Except.error e) => (st1, Except.error e)
  | (st1, Except.ok (finalHcpText, uploadIdToUse, _documentPath)) =>
      let meditagResult := analyzeHCP finalHcpText
      match env.scriptResult with
      | Except.error _ => (st1, Except.error PipelineError.scriptGenFailed)
      | Except.ok scriptResult =>
          let complianceResult :=
            evaluateCompliance scriptResult.script env.llmCompliance
          let videoResult :=
            generateVideo scriptResult.script scriptResult.targetAudience
              env.heygen
          let insertVideo : InsertVideo :=
            { title := getVideoTitle prompt scriptResult.targetAudience,
              upload_id := uploadIdToUse.getD 0,
              prompt := prompt,
              target_hcp := scriptResult.targetAudience,
              video_url := videoResult.videoUrl,
              thumbnail_url := videoResult.thumbnailUrl,
              duration := scriptResult.duration,
              compliance_status := complianceResult.status,
              meditag_segment := meditagResult.segment,
              generated_script := scriptResult.script,
              compliance_details := complianceResult.details }
          let r := storageCreateVideo st1 insertVideo
          (r.1, Except.ok r.2)

/-- Upload id carried by a successful run result. -/
def runUploadId : Except PipelineError VideoRec → Option ℕ
  | Except.ok v => some v.upload_id
  | Except.error _ => none

/-- Input resolution never modifies the video table. -/
theorem resolveInput_videos (uploadId : Option ℕ) (hcpText : Option String)
    (st : Storage) : (resolveInput uploadId hcpText st).1.videos = st.videos := by
  unfold resolveInput storageCreateUpload
  by_cases h1 : jsTruthyNatOpt uploadId = true
  · simp only [h1, if_true]
    rcases hf : st.uploads.find? (fun u => u.id == uploadId.getD 0) with _ | u <;>
      simp [hf]
  · by_cases h2 : jsTruthyStrOpt hcpText = true
    · by_cases h3 : (jsTrim (hcpText.getD "") != "") = true
      · simp [h1, h2, h3]
      · simp [h1, h2, h3]
    · simp [h1, h2]

/-- When a truthy upload id is resolvable, input resolution does not
error. -/
theorem resolveInput_no_error (uploadId : Option ℕ) (hcpText : Option String)
    (st : Storage)
    (hres : jsTruthyNatOpt uploadId = true →
      (st.uploads.find? (fun u => u.id == uploadId.getD 0)).isSome)
    (e : PipelineError) :
    (resolveInput uploadId hcpText st).2 ≠ Except.error e := by
  unfold resolveInput storageCreateUpload
  by_cases h1 : jsTruthyNatOpt uploadId = true
  · simp only [h1, if_true]
    rcases hf : st.uploads.find? (fun u => u.id == uploadId.getD 0) with _ | u
    · have h := hres h1
      rw [hf] at h
      simp at h
    · simp [hf]
  · by_cases h2 : jsTruthyStrOpt hcpText = true
    · by_cases h3 : (jsTrim (hcpText.getD "") != "") = true
      · simp [h1, h2, h3]
      · simp [h1, h2, h3]
    · simp [h1, h2]

/-- C5: whenever the script-drafting call fails (and input resolution itself
succeeds), the run aborts with the generic script-generation error and no
video row is created. -/
theorem createVideoRun_script_failure (env : PipelineEnv)
    (uploadId : Option ℕ) (prompt : String) (hcpText : Option String)
    (st : Storage)
    (hres : jsTruthyNatOpt uploadId = true →
      (st.uploads.find? (fun u => u.id == uploadId.getD 0)).isSome)
    (hscript : env.scriptResult = Except.error ()) :
    (createVideoRun env uploadId prompt hcpText st).2 =
        Except.error PipelineError.scriptGenFailed ∧
      (createVideoRun env uploadId prompt hcpText st).1.videos = st.videos := by
  rcases hr : resolveInput uploadId hcpText st with ⟨st1, res⟩
  have hv : st1.videos = st.videos := by
    have h := resolveInput_videos uploadId hcpText st
    rw [hr] at h
    exact h
  rcases res with e | x
  · exfalso
    apply resolveInput_no_error uploadId hcpText st hres e
    rw [hr]
  · rcases x with ⟨f, uu, dp⟩
    have hrun : createVideoRun env uploadId prompt hcpText st =
        (st1, Except.error PipelineError.scriptGenFailed) := by
      unfold createVideoRun
      rw [hr, hscript]
    rw [hrun]
    exact ⟨rfl, hv⟩

/-- Witness for C5: with a failing script call and no inputs, the run on an
empty store errors and creates no video. -/
theorem createVideoRun_script_failure_witness :
    (createVideoRun
        { scriptResult := Except.error (), llmCompliance := Except.error (),
          heygen :=
            { apiKey := none, v2Response := Except.ok none,
              v1Response := Except.ok none,
              videoStatusResponse := Except.ok none,
              taskStatusResponse := Except.ok none } }
        none "Create a video about a new heart failure drug" none
        { uploads := [], videos := [], nextUploadId := 1,
          nextVideoId := 1 }).2 =
        Except.error PipelineError.scriptGenFailed ∧
      (createVideoRun
        { scriptResult := Except.error (), llmCompliance := Except.error (),
          heygen :=
            { apiKey := none, v2Response := Except.ok none,
              v1Response := Except.ok none,
              videoStatusResponse := Except.ok none,
              taskStatusResponse := Except.ok none } }
        none "Create a video about a new heart failure drug" none
        { uploads := [], videos := [], nextUploadId := 1,
          nextVideoId := 1 }).1.videos = ([] : List VideoRec) :=
  createVideoRun_script_failure _ none
    "Create a video about a new heart failure drug" none
    { uploads := [], videos := [], nextUploadId := 1, nextVideoId := 1 }
    (by decide) rfl

/-- C6: concrete evaluation of the whitespace-only HCP text path.  With no
upload id and `hcpText = " "`, the run substitutes the default profile text
but creates *no* upload row (the store's upload table stays empty, and also
stays empty after the run), and the persisted video carries `upload_id = 0`,
referencing no upload.  By contrast, with `hcpText` absent the default text
gets a fresh upload row as the claim describes. -/
theorem createVideoRun_whitespace_hcp_no_upload :
    ((createVideoRun
        { scriptResult :=
            Except.ok
              { script := "evidence-based script", duration := 8,
                targetAudience := "Cardiologist" },
          llmCompliance :=
            Except.ok { passed := true, score := 90 },
          heygen :=
            { apiKey := none, v2Response := Except.ok none,
              v1Response := Except.ok none,
              videoStatusResponse := Except.ok none,
              taskStatusResponse := Except.ok none } }
        none "Test prompt" (some " ")
        { uploads := [], videos := [], nextUploadId := 1,
          nextVideoId := 1 }).1.uploads = ([] : List UploadRec)) ∧
    (runUploadId
      (createVideoRun
        { scriptResult :=
            Except.ok
              { script := "evidence-based script", duration := 8,
                targetAudience := "Cardiologist" },
          llmCompliance :=
            Except.ok { passed := true, score := 90 },
          heygen :=
            { apiKey := none, v2Response := Except.ok none,
              v1Response := Except.ok none,
              videoStatusResponse := Except.ok none,
              taskStatusResponse := Except.ok none } }
        none "Test prompt" (some " ")
        { uploads := [], videos := [], nextUploadId := 1,
          nextVideoId := 1 }).2 = some 0) ∧
    ((createVideoRun
        { scriptResult :=
            Except.ok
              { script := "evidence-based script", duration := 8,
                targetAudience := "Cardiologist" },
          llmCompliance :=
            Except.ok { passed := true, score := 90 },
          heygen :=
            { apiKey := none, v2Response := Except.ok none,
              v1Response := Except.ok none,
              videoStatusResponse := Except.ok none,
              taskStatusResponse := Except.ok none } }
        none "Test prompt" none
        { uploads := [], videos := [], nextUploadId := 1,
          nextVideoId := 1 }).1.uploads =
      [{ id := 1, user_id := "anonymous", hcp_text := defaultHcpText,
         document_path := none }]) := by
  refine ⟨?_, ?_, ?_⟩ <;> decide

/-! ### Compliance statistics (`getComplianceStats` in the video service) -/

/-- JS `Math.round` on the nonnegative operands used here: floor of x+1/2. -/
def jsRound (q : ℚ) : ℤ := ⌊q + 1 / 2⌋

/-- JS `(+x.toFixed(1))`: the value rounded to one decimal digit, ties toward
the larger value as the ES spec prescribes. -/
def jsToFixed1 (q : ℚ) : ℚ := (⌊q * 10 + 1 / 2⌋ : ℚ) / 10

/-- Result shape of `getComplianceStats`. -/
structure ComplianceStatsResult where
  compliance_rate : ℤ
  hcp_response_rate : ℤ
  turnaround_time : String
  videos_generated : ℤ
  videos_passed : ℤ
  avg_duration : ℚ
  adoption_gains : String
deriving DecidableEq

/-- Number of stored videos whose compliance status is `Passed`. -/
def passedCount (videos : List VideoRec) : ℕ :=
  (videos.filter (fun v => v.compliance_status == CStatus.Passed)).length

/-- Sum of the stored videos' durations. -/
def totalDuration (videos : List VideoRec) : ℤ :=
  (videos.map (fun v => v.duration)).sum

/-- `getComplianceStats`: aggregates guarded by JS truthiness/ternaries, with
fixed demo defaults (`95`, `127`, `121`, `8.5`) substituted when the
corresponding aggregate is zero or the table is empty; `hcp_response_rate`,
`turnaround_time` and `adoption_gains` are constants. -/
def getComplianceStats (videos : List VideoRec) : ComplianceStatsResult :=
  let totalVideos : ℤ := videos.length
  let passedVideos : ℤ := passedCount videos
  { compliance_rate :=
      if totalVideos > 0 then
        jsRound (((passedVideos : ℚ) / (totalVideos : ℚ)) * 100)
      else 95,
    hcp_response_rate := 20,
    turnaround_time := "7-15 days",
    videos_generated := if totalVideos = 0 then 127 else totalVideos,
    videos_passed := if passedVideos = 0 then 121 else passedVideos,
    avg_duration :=
      if totalVideos > 0 then
        jsToFixed1 ((totalDuration videos : ℚ) / (totalVideos : ℚ))
      else 8.5,
    adoption_gains := "$380K" }

/-- C8 counterexample: on the empty video table the stats are fixed demo
values (rate 95, 127 generated, 121 passed, average 8.5), not aggregates of
the zero stored rows. -/
theorem getComplianceStats_empty_defaults :
    (getComplianceStats []).videos_generated = 127 ∧
    (getComplianceStats []).videos_passed = 121 ∧
    (getComplianceStats []).compliance_rate = 95 ∧
    (getComplianceStats []).avg_duration = 8.5 ∧
    ([] : List VideoRec).length = 0 := by
  refine ⟨?_, ?_, ?_, ?_, rfl⟩ <;>
    norm_num [getComplianceStats, passedCount]

/-- C8 amended: on a nonempty video table with at least one `Passed` row the
stats are genuine aggregates — `videos_generated` is the row count,
`videos_passed` the `Passed` row count, `compliance_rate` the rounded
percentage of `Passed` rows, and `avg_duration` the mean duration rounded to
one decimal digit.  (The empty table yields fixed demo defaults, and a table
with zero `Passed` rows reports the demo value 121, per the
counterexample.) -/
theorem getComplianceStats_nonempty_aggregate (videos : List VideoRec)
    (h1 : videos ≠ []) (h2 : 0 < passedCount videos) :
    (getComplianceStats videos).videos_generated = (videos.length : ℤ) ∧
    (getComplianceStats videos).videos_passed = (passedCount videos : ℤ) ∧
    (getComplianceStats videos).compliance_rate =
      jsRound ((((passedCount videos : ℤ) : ℚ) /
        ((videos.length : ℤ) : ℚ)) * 100) ∧
    (getComplianceStats videos).avg_duration =
      jsToFixed1 ((totalDuration videos : ℚ) / ((videos.length : ℤ) : ℚ)) := by
  have hl : 0 < videos.length := List.length_pos.mpr h1
  have hgt : (0 : ℤ) < (videos.length : ℤ) := by exact_mod_cast hl
  have hne : ¬((videos.length : ℤ) = (0 : ℤ)) := by omega
  have hpne : ¬(((passedCount videos : ℕ) : ℤ) = (0 : ℤ)) := by
    have h3 : passedCount videos ≠ 0 := Nat.pos_iff_ne_zero.mp h2
    exact_mod_cast h3
  unfold getComplianceStats
  dsimp only
  rw [if_pos hgt, if_neg hne, if_neg hpne, if_pos hgt]
  exact ⟨rfl, rfl, rfl, rfl⟩

/-- Sample stored video row used to witness the C8 aggregate theorem. -/
def sampleVideo : VideoRec :=
  { id := 1, title := "Cardiologist Heart Failure Drug", upload_id := 1,
    prompt := "Create a video about a new heart failure drug",
    target_hcp := "Cardiologist", video_url := "https://example.com/v.mp4",
    thumbnail_url := "https://example.com/v.jpg", duration := 8,
    compliance_status := CStatus.Passed, meditag_segment := "Early Adopter",
    generated_script := "evidence-based script",
    compliance_details := { passed := true, score := 90 } }

/-- Witness for the C8 amended theorem on a one-row table. -/
theorem getComplianceStats_nonempty_aggregate_witness :
    (getComplianceStats [sampleVideo]).videos_generated =
        (([sampleVideo] : List VideoRec).length : ℤ) ∧
      (getComplianceStats [sampleVideo]).videos_passed =
        (passedCount [sampleVideo] : ℤ) ∧
      (getComplianceStats [sampleVideo]).compliance_rate =
        jsRound ((((passedCount [sampleVideo] : ℤ) : ℚ) /
          ((([sampleVideo] : List VideoRec).length : ℤ) : ℚ)) * 100) ∧
      (getComplianceStats [sampleVideo]).avg_duration =
        jsToFixed1 ((totalDuration [sampleVideo] : ℚ) /
          ((([sampleVideo] : List VideoRec).length : ℤ) : ℚ)) :=
  getComplianceStats_nonempty_aggregate [sampleVideo] (by simp)
    (by decide)

end ContentCraft
